import Mathlib

/-! Shallow embedding of the dump-rewriting engine in
`src/cloudsql_to_supabase/clean.py` (class `DumpCleaner`), together with
proofs about its line-processing behaviour.

Every regular expression compiled by `DumpCleaner.__init__` is embedded
below as an executable matcher over `List Char`, specialised to that
pattern, with Python `re` semantics: `re.IGNORECASE` throughout, no
`re.MULTILINE` (so an anchor `^` matches only at position 0 and `$` only
at the end of the string or just before a final newline), no `re.DOTALL`
(so a dot never matches a newline).  `re.Pattern.search` applied to a
pattern anchored with a leading `^` is a match at position 0;
`re.Pattern.subn` replaces every non-overlapping leftmost match.  All
the patterns of `clean.py` are deterministic in the sense that ordered
alternatives are mutually exclusive at a given position and every
bounded repetition is followed by a character excluded from it, so the
backtracking search of `re` reduces to the straight-line greedy
matchers written here; each definition carries the pattern it embeds. -/

namespace DumpClean

/-- Python whitespace class `\s` (ASCII part): space, tab, newline,
carriage return, vertical tab, form feed. -/
def isPyWs (c : Char) : Bool :=
  c == ' ' || c == '\t' || c == '\n' || c == '\r' || c == '\x0b' || c == '\x0c'

/-- Python word class `\w` (ASCII part): letters, digits, underscore. -/
def isWordChar (c : Char) : Bool := c.isAlpha || c.isDigit || c == '_'

/-- Case-insensitive character comparison, as under `re.IGNORECASE`. -/
def ciEq (p c : Char) : Bool := p.toLower == c.toLower

/-- Match a literal pattern case-insensitively at the current position;
return the remainder on success. -/
def matchLit : List Char → List Char → Option (List Char)
  | [], s => some s
  | _ :: _, [] => none
  | p :: ps, c :: cs => if ciEq p c then matchLit ps cs else none

/-- Greedy `\s*` (always followed, in the patterns below, by something
that cannot start with whitespace, so greediness needs no backtracking). -/
def wsStar (s : List Char) : List Char := s.dropWhile isPyWs

/-- Greedy `\s+`. -/
def wsPlus : List Char → Option (List Char)
  | [] => none
  | c :: cs => if isPyWs c then some (wsStar cs) else none

/-- Word boundary `\b` placed right after a word character: the next
character is absent or is not a word character. -/
def boundaryAfter : List Char → Bool
  | [] => true
  | c :: _ => !isWordChar c

/-- Lazy `.*?;`: the remainder after the first `;`, unreachable past a
newline because `.` does not match `\n`. -/
def scanToSemi : List Char → Option (List Char)
  | [] => none
  | c :: cs => if c == ';' then some cs else if c == '\n' then none else scanToSemi cs

/-- The test `.*?;` succeeds from here. -/
def semiBeforeNl (s : List Char) : Bool := (scanToSemi s).isSome

/-- Python `str.strip()`: remove leading and trailing `\s` characters. -/
def pyStrip (s : String) : String :=
  ⟨((s.data.dropWhile isPyWs).reverse.dropWhile isPyWs).reverse⟩

/-- Iterating an open text file in Python yields each line with its
trailing newline kept; a final unterminated chunk is yielded as well. -/
def splitLinesKeepAux : List Char → List Char → List (List Char)
  | acc, [] => if acc.isEmpty then [] else [acc.reverse]
  | acc, c :: cs =>
    if c == '\n' then (acc.reverse ++ ['\n']) :: splitLinesKeepAux [] cs
    else splitLinesKeepAux (c :: acc) cs

/-- Split file content into lines, Python `keepends` style. -/
def splitLinesKeep (s : String) : List String :=
  (splitLinesKeepAux [] s.data).map (fun l => ⟨l⟩)

/-- Core of `re.subn`: repeatedly find the leftmost match, emit its
expanded replacement, and continue after the matched span.  The matcher
`m` returns the replacement and the remainder after the match.  Every
pattern of `clean.py` consumes at least one character per match, so fuel
`length + 1` always suffices for a full scan. -/
def subnGo (m : List Char → Option (List Char × List Char)) :
    Nat → List Char → List Char × Nat
  | 0, s => (s, 0)
  | _ + 1, [] => ([], 0)
  | n + 1, c :: cs =>
    match m (c :: cs) with
    | some (repl, rest) =>
      let p := subnGo m n rest
      (repl ++ p.1, p.2 + 1)
    | none =>
      let p := subnGo m n cs
      (c :: p.1, p.2)

/-- Full `pattern.subn(replacement, line)` for an unanchored pattern. -/
def pySubn (m : List Char → Option (List Char × List Char)) (s : String) :
    String × Nat :=
  let r := subnGo m (s.data.length + 1) s.data
  (⟨r.1⟩, r.2)

/-- Full `pattern.subn(replacement, line)` for a pattern anchored with a
leading `^` (without `re.MULTILINE` such a pattern can only match at
position 0, so at most one substitution happens). -/
def pySubnAnchored (m : List Char → Option (List Char × List Char)) (s : String) :
    String × Nat :=
  match m s.data with
  | some (repl, rest) => (⟨repl ++ rest⟩, 1)
  | none => (s, 0)

/-! Skip patterns (`DumpCleaner.__init__`, `self.skip_patterns`).
`clean_dump_file` tests each with `pattern.search(line)`; all of them
are `^`-anchored, so search is a match at position 0. -/

/-- Pattern `^\s*(CREATE|ALTER)\s+ROLE\b` (IGNORECASE). -/
def skipCreateAlterRole (line : String) : Bool :=
  Option.isSome <| do
    let s0 := wsStar line.data
    let s1 ← matchLit "CREATE".data s0 <|> matchLit "ALTER".data s0
    let s2 ← wsPlus s1
    let s3 ← matchLit "ROLE".data s2
    guard (boundaryAfter s3)

/-- Pattern `^\s*COMMENT ON EXTENSION\s+(?:pg_stat_statements|plpgsql)\s*;`
(IGNORECASE). -/
def skipCommentOnExtensionNamed (line : String) : Bool :=
  Option.isSome <| do
    let s1 ← matchLit "COMMENT ON EXTENSION".data (wsStar line.data)
    let s2 ← wsPlus s1
    let s3 ← matchLit "pg_stat_statements".data s2 <|> matchLit "plpgsql".data s2
    matchLit ";".data (wsStar s3)

/-- Pattern `^\s*COMMENT ON EXTENSION\b` (IGNORECASE). -/
def skipCommentOnExtensionAny (line : String) : Bool :=
  Option.isSome <| do
    let s1 ← matchLit "COMMENT ON EXTENSION".data (wsStar line.data)
    guard (boundaryAfter s1)

/-- Pattern `^\s*SET\s+(?:transaction_timeout|idle_in_transaction_session_timeout|lock_timeout|statement_timeout)\s*=\s*.*?;`
(IGNORECASE). -/
def skipSetTimeout (line : String) : Bool :=
  Option.isSome <| do
    let s1 ← matchLit "SET".data (wsStar line.data)
    let s2 ← wsPlus s1
    let s3 ← matchLit "transaction_timeout".data s2 <|>
      matchLit "idle_in_transaction_session_timeout".data s2 <|>
      matchLit "lock_timeout".data s2 <|>
      matchLit "statement_timeout".data s2
    let s4 ← matchLit "=".data (wsStar s3)
    guard (semiBeforeNl (wsStar s4))

/-- Pattern `^\s*SET\s+default_transaction_read_only\s*=\s*on;` (IGNORECASE). -/
def skipSetReadOnly (line : String) : Bool :=
  Option.isSome <| do
    let s1 ← matchLit "SET".data (wsStar line.data)
    let s2 ← wsPlus s1
    let s3 ← matchLit "default_transaction_read_only".data s2
    let s4 ← matchLit "=".data (wsStar s3)
    matchLit "on;".data (wsStar s4)

/-- Pattern `^\s*GRANT\s+pg_signal_backend\s+TO\s+cloudsqlsuperuser;` (IGNORECASE). -/
def skipGrantPgSignalBackend (line : String) : Bool :=
  Option.isSome <| do
    let s1 ← matchLit "GRANT".data (wsStar line.data)
    let s2 ← wsPlus s1
    let s3 ← matchLit "pg_signal_backend".data s2
    let s4 ← wsPlus s3
    let s5 ← matchLit "TO".data s4
    let s6 ← wsPlus s5
    matchLit "cloudsqlsuperuser;".data s6

/-- Roles filtered out, `self.problematic_roles_to_filter` (hard-coded). -/
def problematic_roles_to_filter : List String := ["cloudsqlsuperuser", "cloudsqladmin"]

/-- One role of the alternation `(?:"role"|role\b|...)`: the quoted form
is tried before the bare form with a trailing word boundary, mirroring
the append order in `DumpCleaner.__init__`. -/
def roleAltTry (role : List Char) (s : List Char) : Option (List Char) :=
  matchLit ('"' :: (role ++ ['"'])) s <|> (do
    let s1 ← matchLit role s
    guard (boundaryAfter s1)
    pure s1)

/-- The full alternation `self.problematic_role_match_pattern`, i.e.
`(?:"cloudsqlsuperuser"|cloudsqlsuperuser\b|"cloudsqladmin"|cloudsqladmin\b)`;
the alternatives are mutually exclusive at any given position. -/
def roleAltAt (s : List Char) : Option (List Char) :=
  problematic_roles_to_filter.foldr (fun role acc => roleAltTry role.data s <|> acc) none

/-- Search `.*ROLEPAT.*?;` from the current position: a role-alternation
match at some position not past a newline, with a `;` after it and no
newline in between. -/
def searchRoleSemi : List Char → Bool
  | [] => false
  | c :: cs =>
    (match roleAltAt (c :: cs) with
     | some rest => semiBeforeNl rest
     | none => false)
    || (c != '\n' && searchRoleSemi cs)

/-- Pattern `^\s*SET\s+(?:ROLE|SESSION\s+AUTHORIZATION)\s+ROLEPAT\s*;`
(IGNORECASE). -/
def skipSetRoleAuth (line : String) : Bool :=
  Option.isSome <| do
    let s1 ← matchLit "SET".data (wsStar line.data)
    let s2 ← wsPlus s1
    let s3 ← matchLit "ROLE".data s2 <|> (do
      let a ← matchLit "SESSION".data s2
      let b ← wsPlus a
      matchLit "AUTHORIZATION".data b)
    let s4 ← wsPlus s3
    let s5 ← roleAltAt s4
    matchLit ";".data (wsStar s5)

/-- Pattern `^\s*(?:GRANT|REVOKE).*ROLEPAT.*?;` (IGNORECASE),
implemented on lists by `skipGrantRevokeRoleAux`. -/
def skipGrantRevokeRoleAux (s : List Char) : Bool :=
  Option.isSome <| do
    let s0 := wsStar s
    let s1 ← matchLit "GRANT".data s0 <|> matchLit "REVOKE".data s0
    guard (searchRoleSemi s1)

/-- Pattern `^\s*(?:GRANT|REVOKE).*ROLEPAT.*?;` (IGNORECASE). -/
def skipGrantRevokeRole (line : String) : Bool :=
  skipGrantRevokeRoleAux line.data

/-- Pattern `^\s*ALTER DEFAULT PRIVILEGES\s+FOR ROLE\s+ROLEPAT\s+.*?;`
(IGNORECASE). -/
def skipAlterDefaultPrivileges (line : String) : Bool :=
  Option.isSome <| do
    let s1 ← matchLit "ALTER DEFAULT PRIVILEGES".data (wsStar line.data)
    let s2 ← wsPlus s1
    let s3 ← matchLit "FOR ROLE".data s2
    let s4 ← wsPlus s3
    let s5 ← roleAltAt s4
    let s6 ← wsPlus s5
    guard (semiBeforeNl s6)

/-- The ordered skip-pattern list of `DumpCleaner.__init__`: six fixed
patterns, extended with three role patterns exactly when
`problematic_roles_to_filter` is non-empty (it is). -/
def skip_patterns : List (String → Bool) :=
  [skipCreateAlterRole, skipCommentOnExtensionNamed, skipCommentOnExtensionAny,
   skipSetTimeout, skipSetReadOnly, skipGrantPgSignalBackend]
  ++ (if problematic_roles_to_filter.isEmpty then []
      else [skipSetRoleAuth, skipGrantRevokeRole, skipAlterDefaultPrivileges])

/-- True when some skip pattern matches, as in the per-line loop of
`clean_dump_file`. -/
def matchesAnySkip (line : String) : Bool := skip_patterns.any (fun p => p line)

/-! Replacement rules (`DumpCleaner.__init__`, `self.replacement_rules`),
each applied with `pattern.subn(replacement, line)`. -/

/-- The `owner_replacement_str` computed in `DumpCleaner.__init__`:
`OWNER TO public;` when the target schema is `public`, otherwise
`OWNER TO "<target_schema>";`. -/
def ownerReplacement (ts : String) : String :=
  if ts = "public" then "OWNER TO public;"
  else "OWNER TO \"" ++ ts ++ "\";"

/-- Alternative `"[^"]+"` followed by `;`: an opening quote, a non-empty
run of non-quote characters, the closing quote, then `;`. -/
def ownerOperandQuoted : List Char → Option (List Char)
  | '"' :: t =>
    match t.dropWhile (fun c => c != '"') with
    | '"' :: ';' :: r => if (t.takeWhile (fun c => c != '"')).isEmpty then none else some r
    | _ => none
  | _ => none

/-- Alternative `[^\s;]+` followed by `;`: a non-empty run of characters
that are neither whitespace nor `;`, then `;`. -/
def ownerOperandBare (s : List Char) : Option (List Char) :=
  match s.dropWhile (fun c => !isPyWs c && c != ';') with
  | ';' :: r => if (s.takeWhile (fun c => !isPyWs c && c != ';')).isEmpty then none else some r
  | _ => none

/-- Pattern `OWNER TO (?:"[^"]+"|[^\s;]+);` (IGNORECASE) at the current
position; the quoted alternative is tried first. -/
def ownerMatchAt (s : List Char) : Option (List Char) :=
  match matchLit "OWNER TO ".data s with
  | none => none
  | some s1 => ownerOperandQuoted s1 <|> ownerOperandBare s1

/-- Rule `(OWNER TO (?:"[^"]+"|[^\s;]+);  ->  owner_replacement_str)`. -/
def ruleOwner (ts : String) (line : String) : String × Nat :=
  pySubn (fun s => (ownerMatchAt s).map (fun rest => ((ownerReplacement ts).data, rest))) line

/-- Rule `(^\s*CREATE SCHEMA\s+.*?;  ->  comment)`. -/
def ruleCreateSchema (line : String) : String × Nat :=
  pySubnAnchored (fun s => do
    let s1 ← matchLit "CREATE SCHEMA".data (wsStar s)
    let s2 ← wsPlus s1
    let rest ← scanToSemi s2
    pure ("-- Schema creation removed (Supabase extension schema used instead)".data, rest)) line

/-- Rule `(^\s*ALTER SCHEMA\s+public\s+OWNER TO .*?;  ->  comment)`. -/
def ruleAlterSchemaPublicOwner (line : String) : String × Nat :=
  pySubnAnchored (fun s => do
    let s1 ← matchLit "ALTER SCHEMA".data (wsStar s)
    let s2 ← wsPlus s1
    let s3 ← matchLit "public".data s2
    let s4 ← wsPlus s3
    let s5 ← matchLit "OWNER TO ".data s4
    let rest ← scanToSemi s5
    pure ("-- ALTER SCHEMA public OWNER removed, will be owned by supabase admin/postgres".data,
          rest)) line

/-- The literal matched by the search-path-neutralisation pattern. -/
def setConfigLiteral : String :=
  "SELECT pg_catalog.set_config(\x27search_path\x27, \x27\x27, false);"

/-- The replacement comment of the search-path-neutralisation rule. -/
def setConfigComment : String :=
  "-- SELECT pg_catalog.set_config(\x27search_path\x27, \x27\x27, false); (emptying search_path removed)"

/-- Rule `(^\s*SELECT pg_catalog\.set_config\('search_path', '', false\);\s*$  ->  comment)`.
The trailing `\s*$` greedily absorbs any trailing whitespace, the final
newline of the line included, so on success the whole remainder of the
line is part of the match. -/
def ruleSetConfigSearchPath (line : String) : String × Nat :=
  pySubnAnchored (fun s => do
    let s1 ← matchLit setConfigLiteral.data (wsStar s)
    guard (s1.all isPyWs)
    pure (setConfigComment.data, ([] : List Char))) line

/-- Rule `(SET search_path = (?:public(?:,\s*)?)([^;]*);  ->  template)`,
added when the target schema is not `public`.  The group `(?:,\s*)?`
consumes a comma and following whitespace without capturing them; `\1`
re-inserts only the `[^;]*` capture.  The replacement in the source is
the raw f-string `rf"SET search_path = \"{ts}\", public\1;"`: being
raw, its two `\"` keep their backslashes, and the `re` replacement
template keeps a backslash before a non-letter as literal text, so the
expanded replacement really contains backslash-quote around the schema
name. -/
def ruleSearchPathRetarget (ts : String) (line : String) : String × Nat :=
  pySubn (fun s => do
    let s1 ← matchLit "SET search_path = ".data s
    let s2 ← matchLit "public".data s1
    let s3 := match s2 with
      | ',' :: r => wsStar r
      | _ => s2
    match s3.dropWhile (fun c => c != ';') with
    | ';' :: rest =>
      pure (("SET search_path = \\\"" ++ ts ++ "\\\", public").data
              ++ s3.takeWhile (fun c => c != ';') ++ [';'], rest)
    | _ => none) line

/-- Rule `(KW public\.([\w_]+)  ->  KW "<ts>".\1)` for the statement
keywords listed in `schema_replacements` (added when the target schema
is not `public`). -/
def ruleQualified (kw : String) (ts : String) (line : String) : String × Nat :=
  pySubn (fun s => do
    let s1 ← matchLit (kw ++ " public.").data s
    let ident := s1.takeWhile isWordChar
    guard (!ident.isEmpty)
    pure ((kw ++ " \"" ++ ts ++ "\".").data ++ ident, s1.drop ident.length)) line

/-- Rule `(CREATE TRIGGER   ->  CREATE TRIGGER )`: a deliberate no-op
replacement in the source that still counts as a substitution. -/
def ruleCreateTrigger (line : String) : String × Nat :=
  pySubn (fun s => do
    let rest ← matchLit "CREATE TRIGGER ".data s
    pure ("CREATE TRIGGER ".data, rest)) line

/-- Rule `(SET search_path = .*?;  ->  SET search_path = public, pg_catalog;)`,
added when the target schema is `public`. -/
def ruleSearchPathDefault (line : String) : String × Nat :=
  pySubn (fun s => do
    let s1 ← matchLit "SET search_path = ".data s
    let rest ← scanToSemi s1
    pure ("SET search_path = public, pg_catalog;".data, rest)) line

/-- The ordered replacement-rule list of `DumpCleaner.__init__` for a
given target schema. -/
def replacement_rules (ts : String) : List (String → String × Nat) :=
  [ruleOwner ts, ruleCreateSchema, ruleAlterSchemaPublicOwner, ruleSetConfigSearchPath]
  ++ (if ts ≠ "public" then
        [ruleSearchPathRetarget ts,
         ruleQualified "CREATE TABLE" ts,
         ruleQualified "ALTER TABLE ONLY" ts,
         ruleQualified "CREATE SEQUENCE" ts,
         ruleQualified "ALTER SEQUENCE" ts,
         ruleQualified "CREATE VIEW" ts,
         ruleQualified "CREATE FUNCTION" ts,
         ruleCreateTrigger,
         ruleQualified "REFERENCES" ts]
      else [ruleSearchPathDefault])

/-- The audit comment written for a skipped line:
`outfile.write(f"-- SKIPPED LINE (by pattern): LINESTRIP\n")`. -/
def auditComment (line : String) : String :=
  "-- SKIPPED LINE (by pattern): " ++ pyStrip line ++ "\n"

/-- Per-line processing of `clean_dump_file`: first the skip patterns in
order (first match wins, the audit comment is written and the skipped
counter incremented); otherwise every replacement rule is applied in
order to the current line, summing substitution counts.  Returns the
text written for the line, the skipped-counter delta and the
modified-counter delta. -/
def processLine (ts : String) (line : String) : String × Nat × Nat :=
  if matchesAnySkip line then (auditComment line, 1, 0)
  else
    let r := (replacement_rules ts).foldl
      (fun acc rule => let s := rule acc.1; (s.1, acc.2 + s.2)) (line, 0)
    (r.1, 0, r.2)

/-- Whole-stream processing loop: concatenated output text and the
counters `lines_processed`, `skipped_lines`, `modified_lines`. -/
def cleanStream (ts : String) (lines : List String) : String × Nat × Nat × Nat :=
  lines.foldl
    (fun acc line =>
      let r := processLine ts line
      (acc.1 ++ r.1, acc.2.1 + 1, acc.2.2.1 + r.2.1, acc.2.2.2 + r.2.2))
    ("", 0, 0, 0)

/-! File-system model for `DumpCleaner.clean_dump_file`: paths are
component lists; the store records regular files (with their text) and
directories. -/

/-- A file-system state: files with contents, plus directories. -/
structure FileSys where
  files : List (List String × String)
  dirs : List (List String)
deriving DecidableEq

/-- Content of a regular file, if present. -/
def findFile (fs : FileSys) (p : List String) : Option String :=
  (fs.files.find? (fun e => e.1 == p)).map (fun e => e.2)

/-- Python `Path.exists()`: true for a regular file or a directory. -/
def pathExists (fs : FileSys) (p : List String) : Bool :=
  (findFile fs p).isSome || fs.dirs.contains p

/-- Python `Path.mkdir(parents=True, exist_ok=True)` on the parent of
the output path: record every prefix of the directory path. -/
def mkdirParents (fs : FileSys) (d : List String) : FileSys :=
  { fs with dirs := ((List.range d.length).map (fun i => d.take (i + 1))) ++ fs.dirs }

/-- Create or overwrite a regular file. -/
def writeFile (fs : FileSys) (p : List String) (content : String) : FileSys :=
  { fs with files := (p, content) :: fs.files.filter (fun e => !(e.1 == p)) }

/-- Errors surfaced by `clean_dump_file`. -/
inductive CleanError where
  | notFound (path : List String)
  | notAFile (path : List String)
deriving DecidableEq

/-- The body of `DumpCleaner.clean_dump_file`, with its source ordering:
the existence check on the input path comes first and raises
`FileNotFoundError` before the output parent directory is created, the
streams are opened, or any line is read; only then the output directory
is made, the input is read line by line, and the output is written. -/
def clean_dump_file (fs : FileSys) (input output : List String) (ts : String) :
    FileSys × Except CleanError (Nat × Nat × Nat) :=
  if pathExists fs input = false then
    (fs, Except.error (CleanError.notFound input))
  else
    let fs1 := mkdirParents fs output.dropLast
    match findFile fs1 input with
    | none => (fs1, Except.error (CleanError.notAFile input))
    | some content =>
      let lines := splitLinesKeep content
      let r := cleanStream ts lines
      (writeFile fs1 output r.1, Except.ok (r.2.1, r.2.2.1, r.2.2.2))

/-- Substring-occurrence test, used only to state claims about a line
"containing" a given fragment. -/
def hasSub (needle : List Char) : List Char → Bool
  | [] => needle.isEmpty
  | c :: cs => needle.isPrefixOf (c :: cs) || hasSub needle cs

/-! Helper lemmas. -/

/-- Appending strings appends their character lists. -/
theorem strData_append (a b : String) : (a ++ b).data = a.data ++ b.data := rfl

/-- The substitution scan leaves an empty input untouched, whatever the fuel. -/
theorem subnGo_nil (m : List Char → Option (List Char × List Char)) (n : Nat) :
    subnGo m n [] = ([], 0) := by
  cases n <;> rfl

/-- A case-insensitive literal matches itself (in its own spelling). -/
theorem matchLit_self_append : ∀ (p t : List Char), matchLit p (p ++ t) = some t
  | [], _ => rfl
  | a :: ps, t => by simp [matchLit, ciEq, matchLit_self_append ps t]

/-- Greedy run of a character class, stopped by the first excluded character. -/
theorem takeWhile_append_stop {p : Char → Bool} :
    ∀ (l : List Char) (x : Char) (r : List Char),
      (∀ c ∈ l, p c = true) → p x = false → (l ++ x :: r).takeWhile p = l
  | [], x, r, _, hx => by simp [hx]
  | a :: t, x, r, hl, hx => by
    have ha : p a = true := hl a (by simp)
    simp [ha, takeWhile_append_stop t x r (fun c hc => hl c (by simp [hc])) hx]

/-- Remainder after a greedy run of a character class. -/
theorem dropWhile_append_stop {p : Char → Bool} :
    ∀ (l : List Char) (x : Char) (r : List Char),
      (∀ c ∈ l, p c = true) → p x = false → (l ++ x :: r).dropWhile p = x :: r
  | [], x, r, _, hx => by simp [hx]
  | a :: t, x, r, hl, hx => by
    have ha : p a = true := hl a (by simp)
    simp [ha, dropWhile_append_stop t x r (fun c hc => hl c (by simp [hc])) hx]

/-- If the matcher consumes the entire non-empty input at position 0,
the substitution result is exactly the replacement, with one
substitution counted. -/
theorem pySubn_total_match (m : List Char → Option (List Char × List Char))
    (s : String) (repl : List Char)
    (hm : m s.data = some (repl, ([] : List Char))) (hne : s.data ≠ []) :
    pySubn m s = (⟨repl⟩, 1) := by
  match hs : s.data with
  | [] => exact absurd hs hne
  | c :: cs =>
    rw [hs] at hm
    simp only [pySubn, hs, List.length_cons, subnGo, hm, subnGo_nil, List.append_nil]

/-- Character-list form of the replacement written by the ownership rule
for a non-`public` target schema. -/
theorem ownerReplacement_data (ts : String) (hpub : ts ≠ "public") :
    (ownerReplacement ts).data = "OWNER TO ".data ++ ('"' :: (ts.data ++ ['"', ';'])) := by
  simp only [ownerReplacement, if_neg hpub]
  show (("OWNER TO \"" ++ ts) ++ "\";").data = _
  rw [strData_append, strData_append,
      show ("OWNER TO \"" : String).data = "OWNER TO ".data ++ ['"'] from rfl,
      show ("\";" : String).data = ['"', ';'] from rfl]
  simp [List.append_assoc]

/-- On the normalized line produced by the ownership rule for a
quote-free non-`public` target, the rule's pattern matches the whole
line (through its quoted alternative). -/
theorem ownerMatchAt_norm (ts : String) (hpub : ts ≠ "public") (hnil : ts.data ≠ [])
    (hq : ('"' : Char) ∉ ts.data) :
    ownerMatchAt (ownerReplacement ts).data = some [] := by
  have hall : ∀ c ∈ ts.data, (c != '"') = true := by
    intro c hc
    rw [bne_iff_ne]
    exact fun hceq => hq (hceq ▸ hc)
  have htake : (ts.data ++ ['"', ';']).takeWhile (fun c => c != '"') = ts.data :=
    takeWhile_append_stop ts.data '"' [';'] hall (by decide)
  have hdrop : (ts.data ++ ['"', ';']).dropWhile (fun c => c != '"') = '"' :: ';' :: [] :=
    dropWhile_append_stop ts.data '"' [';'] hall (by decide)
  have hie : ts.data.isEmpty = false := by
    match hd : ts.data with
    | [] => exact absurd hd hnil
    | _ :: _ => rfl
  rw [ownerReplacement_data ts hpub]
  simp only [ownerMatchAt, matchLit_self_append, ownerOperandQuoted, htake, hdrop, hie,
    Bool.false_eq_true, if_false, Option.some_orElse]

/-- The ownership rule maps its own normalized output to itself when
the target schema contains no double quote. -/
theorem ruleOwner_norm (ts : String) (hq : ('"' : Char) ∉ ts.data) :
    ruleOwner ts (ownerReplacement ts) = (ownerReplacement ts, 1) := by
  by_cases hpub : ts = "public"
  · subst hpub; decide
  by_cases hnil : ts.data = []
  · have hts : ts = "" := String.ext hnil
    subst hts; decide
  · have hm : ownerMatchAt (ownerReplacement ts).data = some [] :=
      ownerMatchAt_norm ts hpub hnil hq
    have hne : (ownerReplacement ts).data ≠ [] := by
      rw [ownerReplacement_data ts hpub]
      simp
    have hstep := pySubn_total_match
      (fun s => (ownerMatchAt s).map (fun rest => ((ownerReplacement ts).data, rest)))
      (ownerReplacement ts) (ownerReplacement ts).data (by simp [hm]) hne
    simpa [ruleOwner] using hstep

/-- The grant/revoke skip pattern rejects any text starting with a dash
(its anchored `\s*` stops there and neither keyword starts with it). -/
theorem skipGrantRevokeRoleAux_dash (t : List Char) :
    skipGrantRevokeRoleAux ('-' :: t) = false := by
  have h1 : isPyWs '-' = false := by decide
  have h4 : ("GRANT" : String).data = 'G' :: "RANT".data := rfl
  have h5 : ("REVOKE" : String).data = 'R' :: "EVOKE".data := rfl
  have h2 : ciEq 'G' '-' = false := by decide
  have h3 : ciEq 'R' '-' = false := by decide
  simp [skipGrantRevokeRoleAux, wsStar, List.dropWhile, h1, h4, h5, matchLit, h2, h3]

/-- The audit comment starts with a dash. -/
theorem auditComment_data_cons (line : String) :
    ∃ t : List Char, (auditComment line).data = '-' :: t := by
  refine ⟨("- SKIPPED LINE (by pattern): ".data ++ (pyStrip line).data) ++ "\n".data, ?_⟩
  show (("-- SKIPPED LINE (by pattern): " ++ pyStrip line) ++ "\n").data = _
  rw [strData_append, strData_append,
      show ("-- SKIPPED LINE (by pattern): " : String).data
        = '-' :: "- SKIPPED LINE (by pattern): ".data from rfl]
  simp

/-- A line matched by the grant/revoke skip pattern is matched by some
pattern of the skip list. -/
theorem matchesAnySkip_of_grant {line : String} (h : skipGrantRevokeRole line = true) :
    matchesAnySkip line = true := by
  simp [matchesAnySkip, skip_patterns, problematic_roles_to_filter, List.isEmpty, h]

/-! Claim theorems. -/

/-- C1 evaluation at the claim's own scenario line.  The claim (and the
spec) say the rewrite produces `OWNER TO <targetOwner>;` for a
configured target owner role such as `postgres`; the code has no target
owner at all and derives the new owner from the target schema, so with
`target_schema = "public"` the scenario line becomes
`ALTER TABLE public.t OWNER TO public;` (and `public` is not a role that
can own objects), while the modification counter does go up by 1. -/
theorem ownership_rewrite_target_eval :
    processLine "public" "ALTER TABLE public.t OWNER TO cloudsqlsuperuser;\n" =
      ("ALTER TABLE public.t OWNER TO public;\n", 0, 1) := by decide

/-- C2: a line matching at least one skip pattern is never rewritten;
its whole output is the audit comment, the skipped counter rises by
exactly 1 and the modification counter is unchanged. -/
theorem skip_precedence (ts line : String) (h : matchesAnySkip line = true) :
    processLine ts line = (auditComment line, 1, 0) := by
  simp [processLine, h]

/-- Witness for C2 at a concrete skipped line. -/
theorem skip_precedence_witness :
    matchesAnySkip "CREATE ROLE foo;\n" = true ∧
    processLine "public" "CREATE ROLE foo;\n" =
      ("-- SKIPPED LINE (by pattern): CREATE ROLE foo;\n", 1, 0) :=
  ⟨by decide, (skip_precedence "public" "CREATE ROLE foo;\n" (by decide)).trans (by decide)⟩

/-- C3 counterexample: a line containing `GRANT ... TO cloudsqlsuperuser;`
but not beginning with `GRANT`/`REVOKE` matches no skip pattern (they
are all `^`-anchored) and passes through to the output verbatim. -/
theorem role_strip_midline_cex :
    hasSub "GRANT ALL TO cloudsqlsuperuser;".data
      ("SELECT 1; GRANT ALL TO cloudsqlsuperuser;\n" : String).data = true ∧
    matchesAnySkip "SELECT 1; GRANT ALL TO cloudsqlsuperuser;\n" = false ∧
    processLine "public" "SELECT 1; GRANT ALL TO cloudsqlsuperuser;\n" =
      ("SELECT 1; GRANT ALL TO cloudsqlsuperuser;\n", 0, 0) :=
  ⟨by decide, by decide, by decide⟩

/-- C3 amended: a line beginning (after optional whitespace) with
`GRANT` or `REVOKE` and mentioning a stripped role (double-quoted, or
bare at a word boundary) with a `;` after the mention is skipped: the
only text written for it is the audit comment, which differs from the
line, so the line itself is never written. -/
theorem grant_revoke_line_skipped (ts line : String)
    (h : skipGrantRevokeRole line = true) :
    processLine ts line = (auditComment line, 1, 0) ∧ auditComment line ≠ line := by
  have hs := matchesAnySkip_of_grant h
  refine ⟨by simp [processLine, hs], ?_⟩
  intro heq
  have h2 : skipGrantRevokeRole (auditComment line) = true := by rw [heq]; exact h
  obtain ⟨t, ht⟩ := auditComment_data_cons line
  simp only [skipGrantRevokeRole, ht, skipGrantRevokeRoleAux_dash] at h2
  exact Bool.false_ne_true h2

/-- Witness for C3's amended claim at a concrete grant line. -/
theorem grant_revoke_line_skipped_witness :
    skipGrantRevokeRole "GRANT ALL ON SCHEMA public TO cloudsqlsuperuser;\n" = true ∧
    (processLine "public" "GRANT ALL ON SCHEMA public TO cloudsqlsuperuser;\n" =
        (auditComment "GRANT ALL ON SCHEMA public TO cloudsqlsuperuser;\n", 1, 0) ∧
      auditComment "GRANT ALL ON SCHEMA public TO cloudsqlsuperuser;\n" ≠
        "GRANT ALL ON SCHEMA public TO cloudsqlsuperuser;\n") :=
  ⟨by decide, grant_revoke_line_skipped "public" _ (by decide)⟩

/-- C4 counterexample: an `ALTER <object-kind> ... OWNER TO <stripped-role>;`
line matches no skip rule (the policy-dependent skip rules cover only
`SET ROLE`/`SET SESSION AUTHORIZATION`, `GRANT`/`REVOKE` and
`ALTER DEFAULT PRIVILEGES`, never `OWNER TO` clauses), so it is not
replaced by the audit comment. -/
theorem alter_owner_stripped_role_cex :
    matchesAnySkip "ALTER TABLE ONLY public.widgets OWNER TO cloudsqladmin;\n" = false ∧
    (processLine "public" "ALTER TABLE ONLY public.widgets OWNER TO cloudsqladmin;\n").1 ≠
      auditComment "ALTER TABLE ONLY public.widgets OWNER TO cloudsqladmin;\n" :=
  ⟨by decide, by decide⟩

/-- C4 amended: such lines match no skip rule and are instead rewritten
by the ownership rule (bare or double-quoted stripped role alike), with
the modification counter incremented and the skipped counter untouched. -/
theorem alter_owner_stripped_role_rewritten :
    (matchesAnySkip "ALTER TABLE ONLY public.widgets OWNER TO cloudsqladmin;\n" = false ∧
      processLine "public" "ALTER TABLE ONLY public.widgets OWNER TO cloudsqladmin;\n" =
        ("ALTER TABLE ONLY public.widgets OWNER TO public;\n", 0, 1)) ∧
    (matchesAnySkip "ALTER SEQUENCE public.seq OWNER TO \"cloudsqlsuperuser\";\n" = false ∧
      processLine "public" "ALTER SEQUENCE public.seq OWNER TO \"cloudsqlsuperuser\";\n" =
        ("ALTER SEQUENCE public.seq OWNER TO public;\n", 0, 1)) :=
  ⟨⟨by decide, by decide⟩, ⟨by decide, by decide⟩⟩

/-- C5 counterexample: with a non-`public` target schema, a non-skipped
line containing a qualified reference `public.<identifier>` outside the
rewritten statement contexts passes through unchanged. -/
theorem schema_retarget_universal_cex :
    hasSub "public.".data ("INSERT INTO public.orders VALUES (1);\n" : String).data = true ∧
    matchesAnySkip "INSERT INTO public.orders VALUES (1);\n" = false ∧
    processLine "analytics" "INSERT INTO public.orders VALUES (1);\n" =
      ("INSERT INTO public.orders VALUES (1);\n", 0, 0) :=
  ⟨by decide, by decide, by decide⟩

/-- C5 amended: only qualified references in the listed statement
contexts (`CREATE TABLE`, `ALTER TABLE ONLY`, `CREATE SEQUENCE`,
`ALTER SEQUENCE`, `CREATE VIEW`, `CREATE FUNCTION`, `REFERENCES`) are
retargeted; in particular the claim's `CREATE TABLE` example is
rewritten to `"analytics".orders` when the target schema is
`analytics`, and the same line is left unchanged when the target schema
is `public`. -/
theorem schema_retarget_keyword_contexts :
    processLine "analytics" "CREATE TABLE public.orders (id integer);\n" =
      ("CREATE TABLE \"analytics\".orders (id integer);\n", 0, 1) ∧
    processLine "public" "CREATE TABLE public.orders (id integer);\n" =
      ("CREATE TABLE public.orders (id integer);\n", 0, 0) :=
  ⟨by decide, by decide⟩

/-- C6 evaluation at the claim's scenario.  The claim says the rewritten
line names the target schema first, then `public`, then the remaining
listed schemas; the code instead consumes the comma and whitespace after
`public` inside the non-capturing group `(?:,\s*)?` without restoring
them, and its raw replacement template keeps literal backslashes before
the quotes, so `extensions` is glued onto `public` in the output. -/
theorem search_path_retarget_eval :
    processLine "analytics" "SET search_path = public, extensions;\n" =
      ("SET search_path = \\\"analytics\\\", publicextensions;\n", 0, 1) := by decide

/-- C7 counterexample: the audit comment written for a skipped line
never has the claimed form `-- SKIPPED LINE (by pattern <pattern>): ...`
for any pattern identifier — the code's f-string contains no pattern at
all, so character 27 of the written comment is `)` where the claimed
form has a space. -/
theorem audit_comment_pattern_id_cex :
    matchesAnySkip "CREATE ROLE admin;\n" = true ∧
    ¬ ∃ pid rest : List Char,
        (processLine "public" "CREATE ROLE admin;\n").1.data =
          "-- SKIPPED LINE (by pattern ".data ++ (pid ++ ("): ".data ++ rest)) := by
  refine ⟨by decide, ?_⟩
  rintro ⟨pid, rest, h⟩
  have h1 : (processLine "public" "CREATE ROLE admin;\n").1 =
      "-- SKIPPED LINE (by pattern): CREATE ROLE admin;\n" := by decide
  rw [h1] at h
  have h2 : (("-- SKIPPED LINE (by pattern): CREATE ROLE admin;\n" : String).data)[27]? =
      ("-- SKIPPED LINE (by pattern ".data ++ (pid ++ ("): ".data ++ rest)))[27]? := by
    rw [h]
  rw [List.getElem?_append_left (by decide)] at h2
  exact absurd h2 (by decide)

/-- C7 amended: the comment written for every skipped line is exactly
`-- SKIPPED LINE (by pattern): <original-trimmed-line>` — the matching
pattern is not identified. -/
theorem audit_comment_exact_form (ts line : String) (h : matchesAnySkip line = true) :
    processLine ts line =
      ("-- SKIPPED LINE (by pattern): " ++ pyStrip line ++ "\n", 1, 0) := by
  simp [processLine, h, auditComment]

/-- Witness for C7's amended claim at a concrete skipped line. -/
theorem audit_comment_exact_form_witness :
    matchesAnySkip "SET lock_timeout = 0;\n" = true ∧
    processLine "public" "SET lock_timeout = 0;\n" =
      ("-- SKIPPED LINE (by pattern): SET lock_timeout = 0;\n", 1, 0) :=
  ⟨by decide,
   (audit_comment_exact_form "public" "SET lock_timeout = 0;\n" (by decide)).trans (by decide)⟩

/-- C8: when the input path does not exist, cleaning fails with a
not-found error before any line is read; the state is returned exactly
as it was, so neither the output file nor its parent directory is
created or altered (the existence check precedes the `mkdir` and the
opening of the output stream in the source). -/
theorem input_not_found_atomic (fs : FileSys) (input output : List String) (ts : String)
    (h : pathExists fs input = false) :
    clean_dump_file fs input output ts = (fs, Except.error (CleanError.notFound input)) := by
  simp [clean_dump_file, h]

/-- Witness for C8 on a concrete empty file system. -/
theorem input_not_found_atomic_witness :
    pathExists ⟨[], []⟩ ["missing.sql"] = false ∧
    clean_dump_file ⟨[], []⟩ ["missing.sql"] ["out", "cleaned.sql"] "public" =
      (⟨[], []⟩, Except.error (CleanError.notFound ["missing.sql"])) :=
  ⟨by decide,
   input_not_found_atomic ⟨[], []⟩ ["missing.sql"] ["out", "cleaned.sql"] "public" (by decide)⟩

/-- C9 counterexample: for the target value `a";b` the ownership rule is
not idempotent on its own normalized output — the pattern's quoted
alternative stops at the quote inside the value, matches a proper prefix
of the line, and each application appends another `b";`. -/
theorem owner_idempotence_cex :
    (ruleOwner "a\";b" ((ruleOwner "a\";b" (ownerReplacement "a\";b")).1)).1 ≠
      (ruleOwner "a\";b" (ownerReplacement "a\";b")).1 := by decide

/-- C9 amended: for every target value containing no double-quote
character, applying the ownership rule twice to its normalized line
yields the same line as applying it once (indeed the rule maps the
normalized line to itself, counting one substitution). -/
theorem owner_rule_idempotent_on_normalized (ts : String) (hq : ('"' : Char) ∉ ts.data) :
    (ruleOwner ts ((ruleOwner ts (ownerReplacement ts)).1)).1 =
      (ruleOwner ts (ownerReplacement ts)).1 := by
  simp only [ruleOwner_norm ts hq]

/-- Witness for C9's amended claim at a concrete quote-free target. -/
theorem owner_rule_idempotent_on_normalized_witness :
    (('"' : Char) ∉ ("analytics" : String).data) ∧
    (ruleOwner "analytics" ((ruleOwner "analytics" (ownerReplacement "analytics")).1)).1 =
      (ruleOwner "analytics" (ownerReplacement "analytics")).1 :=
  ⟨by decide, owner_rule_idempotent_on_normalized "analytics" (by decide)⟩

/-- C10: on the conventional `set_config` line, the rule's trailing
`\s*$` absorbs the final newline into the match, so the replacement
comment is written without a terminating newline and the next output
line is concatenated directly onto it — one input line does not map to
one output line. -/
theorem set_config_rule_eats_newline :
    processLine "public" (setConfigLiteral ++ "\n") = (setConfigComment, 0, 1) ∧
    setConfigComment.data.contains '\n' = false ∧
    (cleanStream "public" [setConfigLiteral ++ "\n", "SET xmloption = content;\n"]).1 =
      setConfigComment ++ "SET xmloption = content;\n" :=
  ⟨by decide, by decide, by decide⟩

end DumpClean
